import Mathlib

/-!
Verification of the PlatonicPitch reactive-background engine.

This file embeds the numeric core of the mouse-reactive background drivers
(`canvasBackground.js`, its optimized rewrite, `hybridBackground.js`, and the
logo-tilt driver) as Lean definitions over the real numbers, and proves the
testable properties stated in the design document: easing convergence,
hexagon-grid geometry and coverage, render-pass culling and opacity falloff,
resize-threshold regeneration, dirty-frame scheduling, lifecycle idempotence,
and pointer-leave target resets.

JavaScript numbers are modelled as real numbers; `Math.sqrt` is `Real.sqrt`,
`Math.ceil` on the (positive) grid dimensions is `Nat.ceil`, and the JS test
`row % 2 === 0` on loop indices is integer-evenness, which agrees with the Lean
`Int` `%` on the ranges used.
-/

namespace PlatonicPitch

/-! ## Easing Tracker

`canvasBackground.js` line 271 (and identically the optimized variant line 300,
`hybridBackground.js` line 355, `LogoTilt.update` line 160):
`this.mouse.x += (this.mouse.targetX - this.mouse.x) * this.options.easing;`
applied independently per axis, once per tick. -/

/-- One easing step on a single axis:
`current + (target - current) * factor`. -/
def easeStep (current target factor : ℝ) : ℝ :=
  current + (target - current) * factor

/-- `n` repeated easing steps toward a fixed target, starting at `current`. -/
def easeIter (current target factor : ℝ) : ℕ → ℝ
  | 0 => current
  | n + 1 => easeStep (easeIter current target factor n) target factor

/-! ## Spatial Grid Generator

`generateHexGrid` appears in two variants.  `canvasBackground.js` lines
121-150 uses `hexWidth = size * Math.sqrt(3)`, loop bounds
`rows = Math.ceil(height / (size * 1.5)) + 2`, `cols = Math.ceil(width / hexWidth) + 2`,
with column/row indices running from `-1`, and cell centers
`x = col * hexWidth + (row % 2 === 0 ? 0 : hexWidth / 2)`, `y = row * size * 1.5`.
The optimized variant multiplies both pitches by `spacing = 1.5` (keeping the
odd-row offset at `hexWidth / 2`) and adds only `+ 1` to the loop bounds.
We embed one function parametrized by the spacing factor and the extra
row/column count: `spacing = 1, extra = 2` is `canvasBackground.js`;
`spacing = 3/2, extra = 1` is the optimized variant. -/

/-- One tessellation cell: center coordinates and size, as pushed by
`this.hexGrid.push({ x, y, size })`. -/
structure GridCell where
  x : ℝ
  y : ℝ
  size : ℝ

/-- Center x-coordinate of the cell at (col, row):
`col * hexWidth * spacing + (row % 2 === 0 ? 0 : hexWidth / 2)`
with `hexWidth = size * Math.sqrt(3)`. -/
noncomputable def hexCellX (size spacing : ℝ) (col row : ℤ) : ℝ :=
  col * (size * Real.sqrt 3) * spacing +
    (if row % 2 = 0 then 0 else size * Real.sqrt 3 / 2)

/-- Center y-coordinate of the cell in a given row: `row * size * 1.5 * spacing`. -/
def hexCellY (size spacing : ℝ) (row : ℤ) : ℝ :=
  row * (size * 1.5) * spacing

/-- Number of grid rows: `Math.ceil(height / (size * 1.5 * spacing)) + extra`. -/
noncomputable def gridRows (height size spacing : ℝ) (extra : ℕ) : ℕ :=
  ⌈height / (size * 1.5 * spacing)⌉₊ + extra

/-- Number of grid columns: `Math.ceil(width / (hexWidth * spacing)) + extra`. -/
noncomputable def gridCols (width size spacing : ℝ) (extra : ℕ) : ℕ :=
  ⌈width / (size * Real.sqrt 3 * spacing)⌉₊ + extra

/-- The generated hexagon grid: for every `col` from `-1` to `cols - 1` and
every `row` from `-1` to `rows - 1`, push the cell centered at
(`hexCellX`, `hexCellY`). -/
noncomputable def generateHexGrid (width height size spacing : ℝ) (extra : ℕ) :
    List GridCell :=
  ((List.range (gridCols width size spacing extra + 1)).map
      fun (ci : ℕ) => (ci : ℤ) - 1).flatMap
    fun col =>
      ((List.range (gridRows height size spacing extra + 1)).map
          fun (ri : ℕ) => (ri : ℤ) - 1).map
        fun row =>
          { x := hexCellX size spacing col row, y := hexCellY size spacing row,
            size := size }

/-! ## Layered Renderer: per-cell draw decision

`canvasBackground.js` render, lines 307-333: per cell, compute the distance
from the eased mouse position; skip the cell if it exceeds
`visibilityRadius = fadeRadius * 1.5`; draw it iff the distance is below
`fadeRadius`, at opacity `maxOpacity * Math.pow(1 - distance / fadeRadius, 3)`.
The optimized variant (part_000 lines 374-399) first culls cells whose `y`
lies outside the scroll viewport extended by a 200-unit buffer, and compares
squared distances, taking the square root only for the opacity. -/

/-- The cubic opacity falloff
`maxOpacity * Math.pow(1 - distance / fadeRadius, 3)`. -/
noncomputable def cellOpacity (distance fadeRadius maxOpacity : ℝ) : ℝ :=
  maxOpacity * (1 - distance / fadeRadius) ^ 3

/-- Per-cell outcome of the plain `canvasBackground.js` render pass:
`none` means the cell is skipped (no opacity applied), `some o` means it is
drawn at opacity `o`. -/
noncomputable def hexDraw (mouseX mouseY fadeRadius maxOpacity : ℝ)
    (hex : GridCell) : Option ℝ :=
  let dx := hex.x - mouseX
  let dy := hex.y - mouseY
  let distance := Real.sqrt (dx * dx + dy * dy)
  if distance > fadeRadius * 1.5 then none
  else if distance < fadeRadius then
    some (cellOpacity distance fadeRadius maxOpacity)
  else none

/-- Per-cell outcome of the optimized render pass, with the extra viewport
cull (`hex.y < viewportTop - 200 || hex.y > viewportBottom + 200` skips the
cell) and squared-distance comparisons. -/
noncomputable def hexDrawOptimized (scrollY innerHeight mouseX mouseY
    fadeRadius maxOpacity : ℝ) (hex : GridCell) : Option ℝ :=
  let viewportTop := scrollY
  let viewportBottom := scrollY + innerHeight
  if hex.y < viewportTop - 200 ∨ hex.y > viewportBottom + 200 then none
  else
    let dx := hex.x - mouseX
    let dy := hex.y - mouseY
    let distanceSq := dx * dx + dy * dy
    if distanceSq > (fadeRadius * 1.5) * (fadeRadius * 1.5) then none
    else if distanceSq < fadeRadius * fadeRadius then
      some (cellOpacity (Real.sqrt distanceSq) fadeRadius maxOpacity)
    else none

/-! ## Dirty-Frame Scheduler

The optimized render loop (part_000 lines 296-318, identical logic in
`hybridBackground.js` lines 336-378): on each tick, ease the mouse, compute
`mouseMoved` against the last rendered position with a 1-unit threshold,
increment `frameCount` and force `needsUpdate` every 30 frames, skip the paint
when neither signal holds (but still request the next frame), otherwise paint
and commit the rendered position. -/

/-- The scheduler-relevant state of the optimized render loop. -/
structure SchedState where
  running : Bool
  mouseX : ℝ
  mouseY : ℝ
  targetX : ℝ
  targetY : ℝ
  lastMouseX : ℝ
  lastMouseY : ℝ
  needsUpdate : Bool
  frameCount : ℕ

/-- Outcome of one tick: the new state, whether the expensive paint ran, and
whether the next animation frame was requested. -/
structure TickOutcome where
  state : SchedState
  painted : Bool
  rescheduled : Bool

/-- One invocation of the optimized `render` callback. -/
noncomputable def renderTick (easing : ℝ) (s : SchedState) : TickOutcome :=
  if s.running = false then ⟨s, false, false⟩
  else
    let mx := s.mouseX + (s.targetX - s.mouseX) * easing
    let my := s.mouseY + (s.targetY - s.mouseY) * easing
    let fc := s.frameCount + 1
    let nu : Bool := if 30 ≤ fc then true else s.needsUpdate
    let fc' : ℕ := if 30 ≤ fc then 0 else fc
    if ¬(1 < |mx - s.lastMouseX| ∨ 1 < |my - s.lastMouseY|) ∧ nu = false then
      ⟨{ s with
          mouseX := mx
          mouseY := my
          needsUpdate := nu
          frameCount := fc' }, false, true⟩
    else
      ⟨{ s with
          mouseX := mx
          mouseY := my
          needsUpdate := false
          frameCount := fc'
          lastMouseX := mx
          lastMouseY := my }, true, true⟩

/-- `n` consecutive ticks of the render loop. -/
noncomputable def schedIter (easing : ℝ) (s : SchedState) : ℕ → SchedState
  | 0 => s
  | n + 1 => (renderTick easing (schedIter easing s n)).state

/-! ## Pointer/Viewport Adapter: resize regeneration threshold

Optimized `handleResize` (part_000 lines 94-137): return early within 500 ms
of the previous accepted resize; otherwise adopt the new dimensions, rebuild
the grid only when width or height moved by more than 100 units since the
last build, and always set `needsUpdate`. -/

/-- The resize-relevant state of the optimized engine. -/
structure ResizeState where
  lastResizeTime : ℝ
  width : ℝ
  height : ℝ
  lastWidth : ℝ
  lastHeight : ℝ
  hexGrid : List GridCell
  needsUpdate : Bool

/-- One invocation of the optimized `handleResize`, with the current clock
`now` and the observed `innerWidth` / document height. -/
noncomputable def handleResize (hexEnabled : Bool) (hexSize : ℝ)
    (s : ResizeState) (now innerWidth docHeight : ℝ) : ResizeState :=
  if now - s.lastResizeTime < 500 then s
  else
    let widthChanged := 100 < |innerWidth - s.lastWidth|
    let heightChanged := 100 < |docHeight - s.lastHeight|
    if (widthChanged ∨ heightChanged) ∧ hexEnabled = true then
      { s with
        lastResizeTime := now
        width := innerWidth
        height := docHeight
        lastWidth := innerWidth
        lastHeight := docHeight
        hexGrid := generateHexGrid innerWidth docHeight hexSize (3/2) 1
        needsUpdate := true }
    else
      { s with
        lastResizeTime := now
        width := innerWidth
        height := docHeight
        needsUpdate := true }

/-! ## Lifecycle

`start` / `stop` / `destroy`, `canvasBackground.js` lines 224-251 (identical in
the other drivers).  `scheduled` counts pending animation-frame requests
(`start` runs `render`, which requests one; `stop` cancels the stored request);
the four listener flags and `canvasAttached` track what `init` attached and
`destroy` removes. -/

/-- Lifecycle-relevant state of one engine instance. -/
structure LifecycleState where
  isRunning : Bool
  scheduled : ℕ
  resizeListener : Bool
  mousemoveListener : Bool
  mouseleaveListener : Bool
  scrollListener : Bool
  canvasAttached : Bool
  deriving Repr, DecidableEq

/-- `start()`: no-op while running, else set `isRunning` and invoke `render`,
which requests one animation frame. -/
def start (s : LifecycleState) : LifecycleState :=
  if s.isRunning then s
  else { s with isRunning := true, scheduled := s.scheduled + 1 }

/-- `stop()`: no-op while stopped, else clear `isRunning` and cancel the
pending animation-frame request. -/
def stop (s : LifecycleState) : LifecycleState :=
  if s.isRunning then { s with isRunning := false, scheduled := s.scheduled - 1 }
  else s

/-- `destroy()`: `stop()`, then remove the four event listeners and the
canvas from the document. -/
def destroy (s : LifecycleState) : LifecycleState :=
  let s' := stop s
  { s' with
    resizeListener := false
    mousemoveListener := false
    mouseleaveListener := false
    scrollListener := false
    canvasAttached := false }

/-- The state `init` leaves a freshly-constructed, then `stop`ped engine in:
all listeners attached, not running, no pending frame. -/
def idleEngine : LifecycleState :=
  { isRunning := false
    scheduled := 0
    resizeListener := true
    mousemoveListener := true
    mouseleaveListener := true
    scrollListener := true
    canvasAttached := true }

/-! ## Pointer-leave targets

`canvasBackground.js` `handleMouseLeave` lines 215-219:
`targetX = this.width / 2; targetY = window.scrollY + window.innerHeight / 2`
(center of the current viewport).  `hybridBackground.js` lines 289-293:
`targetX = this.width / 2; targetY = this.height / 2` (center of the owned
hero-section surface). -/

/-- Target set by `handleMouseLeave` of the canvas driver. -/
noncomputable def canvasLeaveTarget (width scrollY innerHeight : ℝ) : ℝ × ℝ :=
  (width / 2, scrollY + innerHeight / 2)

/-- Target set by `handleMouseLeave` of the hybrid driver. -/
noncomputable def hybridLeaveTarget (width height : ℝ) : ℝ × ℝ :=
  (width / 2, height / 2)

/-! ## Theorems -/

theorem easeIter_zero (c t f : ℝ) : easeIter c t f 0 = c := rfl

theorem easeIter_succ (c t f : ℝ) (n : ℕ) :
    easeIter c t f (n + 1) = easeStep (easeIter c t f n) t f := rfl

/-- Single-step distance contraction: the residual `|target - current|`
is multiplied by exactly `1 - factor` (for `factor ≤ 1`). -/
theorem abs_sub_easeStep (c t f : ℝ) (hf : f ≤ 1) :
    |t - easeStep c t f| = (1 - f) * |t - c| := by
  have h : t - easeStep c t f = (1 - f) * (t - c) := by
    unfold easeStep; ring
  rw [h, abs_mul, abs_of_nonneg (by linarith : (0:ℝ) ≤ 1 - f)]

/-- Residual after `n` easing steps: `(1 - f)^n * |t - c|`. -/
theorem abs_sub_easeIter (c t f : ℝ) (hf : f ≤ 1) (n : ℕ) :
    |t - easeIter c t f n| = (1 - f) ^ n * |t - c| := by
  induction n with
  | zero => simp [easeIter_zero]
  | succ n ih =>
      rw [easeIter_succ, abs_sub_easeStep _ _ _ hf, ih, pow_succ]
      ring

end PlatonicPitch

open PlatonicPitch Filter

/-- C1: the easing step computes `current' = current + (target - current) * factor`
per axis; for `current ≠ target` and `factor ∈ (0,1)` each application scales
`|target - current|` by exactly `1 - factor` (hence strictly decreases it), the
residual tends to `0` as steps → ∞, and from current 0, target 100, factor 0.1
one step yields 10 and a second step yields 19. -/
theorem easing_step_contracts_and_converges (c t f : ℝ) (hct : c ≠ t)
    (hf0 : 0 < f) (hf1 : f < 1) :
    easeStep c t f = c + (t - c) * f ∧
    |t - easeStep c t f| = (1 - f) * |t - c| ∧
    |t - easeStep c t f| < |t - c| ∧
    Tendsto (fun n => |t - easeIter c t f n|) atTop (nhds 0) ∧
    easeIter 0 100 (1/10) 1 = 10 ∧ easeIter 0 100 (1/10) 2 = 19 := by
  have habs : |t - c| > 0 := abs_pos.mpr (sub_ne_zero.mpr (Ne.symm hct))
  refine ⟨rfl, abs_sub_easeStep c t f hf1.le, ?_, ?_, ?_, ?_⟩
  · rw [abs_sub_easeStep c t f hf1.le]
    nlinarith
  · have hgeo : Tendsto (fun n : ℕ => (1 - f) ^ n * |t - c|) atTop (nhds 0) := by
      have h0 : Tendsto (fun n : ℕ => (1 - f) ^ n) atTop (nhds 0) :=
        tendsto_pow_atTop_nhds_zero_of_lt_one (by linarith) (by linarith)
      simpa using h0.mul_const |t - c|
    exact hgeo.congr fun n => (abs_sub_easeIter c t f hf1.le n).symm
  · norm_num [easeIter, easeStep]
  · norm_num [easeIter, easeStep]

/-- Witness for C1 at current 0, target 100, factor 1/10. -/
theorem easing_step_contracts_and_converges_holds :
    |(100:ℝ) - easeStep 0 100 (1/10)| < |(100:ℝ) - 0| ∧
    easeIter 0 100 (1/10) 1 = 10 :=
  ⟨(easing_step_contracts_and_converges 0 100 (1/10) (by norm_num)
      (by norm_num) (by norm_num)).2.2.1,
   (easing_step_contracts_and_converges 0 100 (1/10) (by norm_num)
      (by norm_num) (by norm_num)).2.2.2.2.1⟩

/-- C10: for every factor in (0,1] the easing step never overshoots: the new
current lies in the closed interval between the old current and the target,
and the target is a fixed point (if `current = target` the step is the
identity). -/
theorem easing_step_no_overshoot (c t f : ℝ) (hf0 : 0 < f) (hf1 : f ≤ 1) :
    min c t ≤ easeStep c t f ∧ easeStep c t f ≤ max c t ∧
    (c = t → easeStep c t f = c) := by
  refine ⟨?_, ?_, fun h => by simp [easeStep, h]⟩
  · rcases le_total c t with h | h
    · rw [min_eq_left h]; unfold easeStep; nlinarith
    · rw [min_eq_right h]; unfold easeStep; nlinarith
  · rcases le_total c t with h | h
    · rw [max_eq_right h]; unfold easeStep; nlinarith
    · rw [max_eq_left h]; unfold easeStep; nlinarith

/-- Witness for C10 at current 0, target 100, factor 3/10 (the shipped
easing value). -/
theorem easing_step_no_overshoot_holds :
    min (0:ℝ) 100 ≤ easeStep 0 100 (3/10) ∧ easeStep 0 100 (3/10) ≤ max (0:ℝ) 100 ∧
    ((0:ℝ) = 100 → easeStep 0 100 (3/10) = 0) :=
  easing_step_no_overshoot 0 100 (3/10) (by norm_num) (by norm_num)

/-- C4: the per-cell opacity is `maxOpacity * (1 - distance/fadeRadius)^3`;
on `0 ≤ d1 < d2 ≤ fadeRadius` it is antitone, and it vanishes at
`fadeRadius`. -/
theorem cellOpacity_falloff (fadeRadius maxOpacity d1 d2 : ℝ)
    (hr : 0 < fadeRadius) (hm : 0 ≤ maxOpacity)
    (hd1 : 0 ≤ d1) (hd12 : d1 < d2) (hd2 : d2 ≤ fadeRadius) :
    cellOpacity d1 fadeRadius maxOpacity = maxOpacity * (1 - d1 / fadeRadius) ^ 3 ∧
    cellOpacity d2 fadeRadius maxOpacity ≤ cellOpacity d1 fadeRadius maxOpacity ∧
    cellOpacity fadeRadius fadeRadius maxOpacity = 0 := by
  refine ⟨rfl, ?_, ?_⟩
  · unfold cellOpacity
    have hq2 : 0 ≤ 1 - d2 / fadeRadius := by
      have : d2 / fadeRadius ≤ 1 := by rw [div_le_one hr]; exact hd2
      linarith
    have hq12 : 1 - d2 / fadeRadius ≤ 1 - d1 / fadeRadius := by
      have : d1 / fadeRadius ≤ d2 / fadeRadius := by gcongr
      linarith
    exact mul_le_mul_of_nonneg_left (pow_le_pow_left₀ hq2 hq12 3) hm
  · unfold cellOpacity
    rw [div_self hr.ne']
    ring

/-- Witness for C4 at the shipped configuration `fadeRadius = 500`,
`maxOpacity = 9/100`, with distances 100 and 300. -/
theorem cellOpacity_falloff_holds :
    cellOpacity 300 500 (9/100) ≤ cellOpacity 100 500 (9/100) ∧
    cellOpacity 500 500 (9/100) = 0 :=
  ⟨(cellOpacity_falloff 500 (9/100) 100 300 (by norm_num) (by norm_num)
      (by norm_num) (by norm_num) (by norm_num)).2.1,
   (cellOpacity_falloff 500 (9/100) 100 300 (by norm_num) (by norm_num)
      (by norm_num) (by norm_num) (by norm_num)).2.2⟩

/-- C9 counterexample: `handleMouseLeave` of the canvas driver, with surface
width 800, surface (document) height 3000, `scrollY = 0`, viewport height 600
sets the target to `(400, 300)`, while the geometric center of the owned
surface is `(400, 1500)` — the y-target is the viewport center, not the
surface center. -/
theorem canvasLeaveTarget_not_surface_center :
    canvasLeaveTarget 800 0 600 ≠ ((800:ℝ) / 2, (3000:ℝ) / 2) := by
  intro h
  rw [Prod.ext_iff] at h
  norm_num [canvasLeaveTarget] at h

/-- C9 amended: on pointer-leave the hybrid driver resets the target to the
center `(width/2, height/2)` of its owned hero-section surface, while the
canvas driver resets the x-target to `width/2` but the y-target to the center
`scrollY + innerHeight/2` of the current viewport (which equals the surface
center only when the viewport is centered on the surface). -/
theorem leave_targets (w h sy ih : ℝ) :
    hybridLeaveTarget w h = (w / 2, h / 2) ∧
    canvasLeaveTarget w sy ih = (w / 2, sy + ih / 2) :=
  ⟨rfl, rfl⟩

/-- C8: `start` is idempotent (a second `start` leaves exactly one scheduled
tick), `stop` then `destroy` (or `destroy` alone, with or without a prior
`start`) cancels the pending tick and detaches every listener, and the
lifecycle operations are idempotent in any order. The hypothesis is the
engine invariant: exactly one animation frame is pending while running. -/
theorem lifecycle_idempotence (s : LifecycleState)
    (hinv : s.scheduled = if s.isRunning then 1 else 0) :
    start (start s) = start s ∧
    (s.isRunning = false → (start s).scheduled = 1 ∧
      (start (start s)).scheduled = 1) ∧
    (destroy (stop s)).scheduled = 0 ∧
    (destroy (stop s)).resizeListener = false ∧
    (destroy (stop s)).mousemoveListener = false ∧
    (destroy (stop s)).mouseleaveListener = false ∧
    (destroy (stop s)).scrollListener = false ∧
    (destroy s).scheduled = 0 ∧
    stop (stop s) = stop s ∧
    destroy (destroy s) = destroy s := by
  obtain ⟨run, sch, l1, l2, l3, l4, att⟩ := s
  cases run <;> simp_all [start, stop, destroy]

/-- Witness for C8 at the idle post-`init` engine state. -/
theorem lifecycle_idempotence_holds :
    (destroy (stop idleEngine)).scheduled = 0 ∧
    start (start idleEngine) = start idleEngine :=
  ⟨(lifecycle_idempotence idleEngine (by decide)).2.2.1,
   (lifecycle_idempotence idleEngine (by decide)).1⟩

/-- C5: an accepted (unthrottled) resize whose width and height both moved by
less than 100 units since the last grid build leaves the stored cell set
unchanged, while one where width or height moved by more than 100 units
replaces it with a freshly generated grid. -/
theorem resize_regeneration_threshold (hexSize : ℝ) (s : ResizeState)
    (now iw dh : ℝ) (hth : ¬(now - s.lastResizeTime < 500)) :
    (|iw - s.lastWidth| < 100 → |dh - s.lastHeight| < 100 →
      (handleResize true hexSize s now iw dh).hexGrid = s.hexGrid) ∧
    (100 < |iw - s.lastWidth| ∨ 100 < |dh - s.lastHeight| →
      (handleResize true hexSize s now iw dh).hexGrid =
        generateHexGrid iw dh hexSize (3/2) 1) := by
  constructor
  · intro hw hh
    simp only [handleResize, if_neg hth]
    rw [if_neg]
    rintro ⟨hc, -⟩
    rcases hc with hc | hc
    · linarith
    · linarith
  · intro hc
    simp only [handleResize, if_neg hth]
    rw [if_pos ⟨hc, trivial⟩]

theorem renderTick_preserves_running (e : ℝ) (s : SchedState) :
    (renderTick e s).state.running = s.running := by
  obtain ⟨run, mx0, my0, tx, ty, lx0, ly0, nu0, fc0⟩ := s
  cases run
  · rfl
  · simp only [renderTick]
    rw [if_neg (by decide : ¬(true = false))]
    split_ifs <;> rfl

theorem renderTick_reschedules (e : ℝ) (s : SchedState)
    (hrun : s.running = true) :
    (renderTick e s).rescheduled = true := by
  simp only [renderTick, hrun]
  rw [if_neg (by decide : ¬(true = false))]
  split_ifs <;> rfl

/-- A tick on which neither the motion signal nor the heartbeat fires:
the eased mouse advances, the frame counter advances, no paint happens,
but the next frame is still requested. -/
theorem renderTick_skip (e mx0 my0 tx ty lx0 ly0 : ℝ) (fc0 : ℕ)
    (hax : |mx0 + (tx - mx0) * e - lx0| ≤ 1)
    (hay : |my0 + (ty - my0) * e - ly0| ≤ 1)
    (hfc : fc0 + 1 < 30) :
    renderTick e ⟨true, mx0, my0, tx, ty, lx0, ly0, false, fc0⟩
      = ⟨⟨true, mx0 + (tx - mx0) * e, my0 + (ty - my0) * e, tx, ty,
          lx0, ly0, false, fc0 + 1⟩, false, true⟩ := by
  have h30 : ¬(30 ≤ fc0 + 1) := by omega
  simp only [renderTick]
  rw [if_neg (by decide : ¬(true = false)), if_neg h30, if_neg h30,
    if_pos ⟨not_or.mpr ⟨not_lt.mpr hax, not_lt.mpr hay⟩, rfl⟩]

/-- The heartbeat tick: at frame counter 29 the increment reaches 30, forcing
`needsUpdate`; the paint runs, the rendered position is committed, and the
counter and flag reset. -/
theorem renderTick_heartbeat (e mx0 my0 tx ty lx0 ly0 : ℝ) :
    renderTick e ⟨true, mx0, my0, tx, ty, lx0, ly0, false, 29⟩
      = ⟨⟨true, mx0 + (tx - mx0) * e, my0 + (ty - my0) * e, tx, ty,
          mx0 + (tx - mx0) * e, my0 + (ty - my0) * e, false, 0⟩, true, true⟩ := by
  simp only [renderTick]
  rw [if_neg (by decide : ¬(true = false)),
    if_pos (by norm_num : 30 ≤ 29 + 1), if_pos (by norm_num : 30 ≤ 29 + 1),
    if_neg (by rintro ⟨-, hcon⟩; exact Bool.noConfusion hcon)]

/-- With the pointer exactly at rest (target equal to current) and within the
motion threshold of the last rendered position, the loop state only advances
its frame counter for the first 29 ticks. -/
theorem schedIter_stationary (e mx my lx ly : ℝ)
    (hlx : |mx - lx| ≤ 1) (hly : |my - ly| ≤ 1) :
    ∀ k, k ≤ 29 →
      schedIter e ⟨true, mx, my, mx, my, lx, ly, false, 0⟩ k
        = ⟨true, mx, my, mx, my, lx, ly, false, k⟩ := by
  have hmx : mx + (mx - mx) * e = mx := by ring
  have hmy : my + (my - my) * e = my := by ring
  have hax : |mx + (mx - mx) * e - lx| ≤ 1 := by rw [hmx]; exact hlx
  have hay : |my + (my - my) * e - ly| ≤ 1 := by rw [hmy]; exact hly
  intro k
  induction k with
  | zero => intro _; rfl
  | succ n ih =>
      intro hn
      show (renderTick e (schedIter e _ n)).state = _
      rw [ih (by omega), renderTick_skip e mx my mx my lx ly n hax hay (by omega),
        hmx, hmy]

theorem cell_mem_generateHexGrid (w h sz sp : ℝ) (extra ci ri : ℕ)
    (hc : ci < gridCols w sz sp extra + 1) (hr : ri < gridRows h sz sp extra + 1) :
    (⟨hexCellX sz sp ((ci:ℤ) - 1) ((ri:ℤ) - 1), hexCellY sz sp ((ri:ℤ) - 1), sz⟩ :
      GridCell) ∈ generateHexGrid w h sz sp extra := by
  unfold generateHexGrid
  rw [List.mem_flatMap]
  refine ⟨(ci:ℤ) - 1, ?_, ?_⟩
  · rw [List.mem_map]
    exact ⟨ci, List.mem_range.mpr hc, rfl⟩
  · rw [List.mem_map]
    refine ⟨(ri:ℤ) - 1, ?_, rfl⟩
    rw [List.mem_map]
    exact ⟨ri, List.mem_range.mpr hr, rfl⟩

theorem le_ceil_mul (a p : ℝ) (hp : 0 < p) : a ≤ (⌈a / p⌉₊ : ℝ) * p :=
  (div_le_iff₀ hp).mp (Nat.le_ceil _)

/-- C6: for any surface `W, H > 0` and cell size `S > 0` (any spacing factor
and any positive overshoot count, covering both shipped variants), the
generated grid is non-empty, reaches at least one full column pitch left of
`x = 0` and one full row pitch above `y = 0`, spans past `x = W` and `y = H`,
and with the overshoot of the plain variant (`extra = 2`) spans at least one full
pitch beyond the right and bottom edges as well. -/
theorem generateHexGrid_covers (w h sz sp : ℝ) (extra : ℕ)
    (hw : 0 < w) (hh : 0 < h) (hsz : 0 < sz) (hsp : 0 < sp) (hextra : 1 ≤ extra) :
    generateHexGrid w h sz sp extra ≠ [] ∧
    (∃ c ∈ generateHexGrid w h sz sp extra, c.x ≤ -(sz * Real.sqrt 3 * sp)) ∧
    (∃ c ∈ generateHexGrid w h sz sp extra, w ≤ c.x) ∧
    (∃ c ∈ generateHexGrid w h sz sp extra, c.y ≤ -(sz * 1.5 * sp)) ∧
    (∃ c ∈ generateHexGrid w h sz sp extra, h ≤ c.y) ∧
    (2 ≤ extra →
      (∃ c ∈ generateHexGrid w h sz sp extra, w + sz * Real.sqrt 3 * sp ≤ c.x) ∧
      (∃ c ∈ generateHexGrid w h sz sp extra, h + sz * 1.5 * sp ≤ c.y)) := by
  have h3 : 0 < Real.sqrt 3 := Real.sqrt_pos.mpr (by norm_num)
  have hp : 0 < sz * Real.sqrt 3 * sp := by positivity
  have hq : 0 < sz * 1.5 * sp := by positivity
  have hrows : 1 ≤ gridRows h sz sp extra := by unfold gridRows; omega
  have hcols : 1 ≤ gridCols w sz sp extra := by unfold gridCols; omega
  refine ⟨?_, ?_, ?_, ?_, ?_, fun h2e => ⟨?_, ?_⟩⟩
  · exact List.ne_nil_of_mem
      (cell_mem_generateHexGrid w h sz sp extra 0 0 (by omega) (by omega))
  · refine ⟨_, cell_mem_generateHexGrid w h sz sp extra 0 1 (by omega) (by omega), ?_⟩
    have : hexCellX sz sp ((0:ℕ) - 1) ((1:ℕ) - 1) = -(sz * Real.sqrt 3 * sp) := by
      norm_num [hexCellX]
      try ring
    rw [this]
  · refine ⟨_, cell_mem_generateHexGrid w h sz sp extra
      (gridCols w sz sp extra) 1 (by omega) (by omega), ?_⟩
    show w ≤ hexCellX sz sp ((gridCols w sz sp extra : ℤ) - 1) ((1:ℕ) - 1)
    have hx : hexCellX sz sp ((gridCols w sz sp extra : ℤ) - 1) ((1:ℕ) - 1)
        = ((gridCols w sz sp extra : ℝ) - 1) * (sz * Real.sqrt 3 * sp) := by
      norm_num [hexCellX]
      ring
    rw [hx]
    have hceil := le_ceil_mul w (sz * Real.sqrt 3 * sp) hp
    have hco : (⌈w / (sz * Real.sqrt 3 * sp)⌉₊ : ℝ) ≤
        (gridCols w sz sp extra : ℝ) - 1 := by
      unfold gridCols
      push_cast
      have : (1:ℝ) ≤ (extra : ℝ) := by exact_mod_cast hextra
      linarith
    calc w ≤ (⌈w / (sz * Real.sqrt 3 * sp)⌉₊ : ℝ) * (sz * Real.sqrt 3 * sp) := hceil
      _ ≤ ((gridCols w sz sp extra : ℝ) - 1) * (sz * Real.sqrt 3 * sp) :=
          mul_le_mul_of_nonneg_right hco hp.le
  · refine ⟨_, cell_mem_generateHexGrid w h sz sp extra 0 0 (by omega) (by omega), ?_⟩
    have : hexCellY sz sp ((0:ℕ) - 1) = -(sz * 1.5 * sp) := by
      norm_num [hexCellY]
      try ring
    rw [this]
  · refine ⟨_, cell_mem_generateHexGrid w h sz sp extra 0
      (gridRows h sz sp extra) (by omega) (by omega), ?_⟩
    show h ≤ hexCellY sz sp ((gridRows h sz sp extra : ℤ) - 1)
    have hy : hexCellY sz sp ((gridRows h sz sp extra : ℤ) - 1)
        = ((gridRows h sz sp extra : ℝ) - 1) * (sz * 1.5 * sp) := by
      unfold hexCellY
      push_cast
      ring
    rw [hy]
    have hceil := le_ceil_mul h (sz * 1.5 * sp) hq
    have hro : (⌈h / (sz * 1.5 * sp)⌉₊ : ℝ) ≤ (gridRows h sz sp extra : ℝ) - 1 := by
      unfold gridRows
      push_cast
      have : (1:ℝ) ≤ (extra : ℝ) := by exact_mod_cast hextra
      linarith
    calc h ≤ (⌈h / (sz * 1.5 * sp)⌉₊ : ℝ) * (sz * 1.5 * sp) := hceil
      _ ≤ ((gridRows h sz sp extra : ℝ) - 1) * (sz * 1.5 * sp) :=
          mul_le_mul_of_nonneg_right hro hq.le
  · refine ⟨_, cell_mem_generateHexGrid w h sz sp extra
      (gridCols w sz sp extra) 1 (by omega) (by omega), ?_⟩
    show w + sz * Real.sqrt 3 * sp ≤
      hexCellX sz sp ((gridCols w sz sp extra : ℤ) - 1) ((1:ℕ) - 1)
    have hx : hexCellX sz sp ((gridCols w sz sp extra : ℤ) - 1) ((1:ℕ) - 1)
        = ((gridCols w sz sp extra : ℝ) - 1) * (sz * Real.sqrt 3 * sp) := by
      norm_num [hexCellX]
      ring
    rw [hx]
    have hceil := le_ceil_mul w (sz * Real.sqrt 3 * sp) hp
    have hco : (⌈w / (sz * Real.sqrt 3 * sp)⌉₊ : ℝ) + 1 ≤
        (gridCols w sz sp extra : ℝ) - 1 := by
      unfold gridCols
      push_cast
      have : (2:ℝ) ≤ (extra : ℝ) := by exact_mod_cast h2e
      linarith
    have := mul_le_mul_of_nonneg_right hco hp.le
    nlinarith
  · refine ⟨_, cell_mem_generateHexGrid w h sz sp extra 0
      (gridRows h sz sp extra) (by omega) (by omega), ?_⟩
    show h + sz * 1.5 * sp ≤ hexCellY sz sp ((gridRows h sz sp extra : ℤ) - 1)
    have hy : hexCellY sz sp ((gridRows h sz sp extra : ℤ) - 1)
        = ((gridRows h sz sp extra : ℝ) - 1) * (sz * 1.5 * sp) := by
      unfold hexCellY
      push_cast
      ring
    rw [hy]
    have hceil := le_ceil_mul h (sz * 1.5 * sp) hq
    have hro : (⌈h / (sz * 1.5 * sp)⌉₊ : ℝ) + 1 ≤
        (gridRows h sz sp extra : ℝ) - 1 := by
      unfold gridRows
      push_cast
      have : (2:ℝ) ≤ (extra : ℝ) := by exact_mod_cast h2e
      linarith
    have := mul_le_mul_of_nonneg_right hro hq.le
    nlinarith

/-- Witness for C6 at the example surface 800×600 of the design document, with
cell size 30, for both shipped variants. -/
theorem generateHexGrid_covers_holds :
    generateHexGrid 800 600 30 1 2 ≠ [] ∧
    generateHexGrid 800 600 30 (3/2) 1 ≠ [] :=
  ⟨(generateHexGrid_covers 800 600 30 1 2 (by norm_num) (by norm_num)
      (by norm_num) (by norm_num) (by norm_num)).1,
   (generateHexGrid_covers 800 600 30 (3/2) 1 (by norm_num) (by norm_num)
      (by norm_num) (by norm_num) (by norm_num)).1⟩

/-- C7 counterexample: in the optimized variant (`size = 30`,
`spacingFactor = 3/2`), the horizontal offset of an odd row relative to the
even rows is `hexWidth / 2 = 15√3`, not half the horizontal pitch
`size * √3 * spacingFactor / 2 = 22.5√3`. -/
theorem hexRowOffset_not_half_pitch :
    hexCellX 30 (3/2) 0 1 - hexCellX 30 (3/2) 0 0 ≠ 30 * Real.sqrt 3 * (3/2) / 2 := by
  have h3 : 0 < Real.sqrt 3 := Real.sqrt_pos.mpr (by norm_num)
  have e1 : hexCellX 30 (3/2) 0 1 = 30 * Real.sqrt 3 / 2 := by
    norm_num [hexCellX]
  have e0 : hexCellX 30 (3/2) 0 0 = 0 := by
    norm_num [hexCellX]
  rw [e1, e0, sub_zero]
  intro heq
  nlinarith

/-- C7 amended: consecutive cells in a row are `size * √3 * spacingFactor`
apart, consecutive rows are `size * 1.5 * spacingFactor` apart, and odd rows
are offset from even rows by exactly `size * √3 / 2` (half of `hexWidth`),
which equals half the horizontal pitch exactly when `spacingFactor = 1`
(the plain variant). -/
theorem hexGrid_pitches (sz sp : ℝ) (col row : ℤ) :
    hexCellX sz sp (col + 1) row - hexCellX sz sp col row
      = sz * Real.sqrt 3 * sp ∧
    hexCellY sz sp (row + 1) - hexCellY sz sp row = sz * 1.5 * sp ∧
    (row % 2 = 0 →
      hexCellX sz sp col (row + 1) - hexCellX sz sp col row
        = sz * Real.sqrt 3 / 2) ∧
    (row % 2 = 0 → sp = 1 →
      hexCellX sz sp col (row + 1) - hexCellX sz sp col row
        = sz * Real.sqrt 3 * sp / 2) := by
  refine ⟨?_, ?_, fun hrow => ?_, fun hrow hsp => ?_⟩
  · simp only [hexCellX]
    push_cast
    ring
  · simp only [hexCellY]
    push_cast
    ring
  · have h1 : ¬((row + 1) % 2 = 0) := by omega
    simp only [hexCellX, if_pos hrow, if_neg h1]
    ring
  · have h1 : ¬((row + 1) % 2 = 0) := by omega
    simp only [hexCellX, if_pos hrow, if_neg h1, hsp]
    ring

/-- Witness for C7 (amended) at the configuration of the optimized variant. -/
theorem hexGrid_pitches_holds :
    hexCellX 30 (3/2) 0 1 - hexCellX 30 (3/2) 0 0 = 30 * Real.sqrt 3 / 2 ∧
    hexCellY 30 (3/2) 1 - hexCellY 30 (3/2) 0 = 30 * 1.5 * (3/2) :=
  ⟨(hexGrid_pitches 30 (3/2) 0 0).2.2.1 (by decide),
   (hexGrid_pitches 30 (3/2) 0 0).2.1⟩

/-- C2: while `running` is true every tick requests the next frame and never
clears `running` (the loop never stops), a tick on which neither the 1-unit
motion signal nor the heartbeat fires skips the paint but still reschedules,
and with the pointer stationary (eased position within 1 unit of the last
rendered position) and heartbeat interval 30, exactly one paint occurs per 30
ticks — on the 30th — after which the window repeats; a pending `needsUpdate`
additionally forces a paint on its own tick. -/
theorem scheduler_skips_but_never_stops (e : ℝ) (s : SchedState)
    (mx my lx ly : ℝ) (hrun : s.running = true)
    (hlx : |mx - lx| ≤ 1) (hly : |my - ly| ≤ 1) :
    (renderTick e s).rescheduled = true ∧
    (renderTick e s).state.running = s.running ∧
    (|s.mouseX + (s.targetX - s.mouseX) * e - s.lastMouseX| ≤ 1 →
      |s.mouseY + (s.targetY - s.mouseY) * e - s.lastMouseY| ≤ 1 →
      s.needsUpdate = false → s.frameCount + 1 < 30 →
      (renderTick e s).painted = false ∧ (renderTick e s).rescheduled = true) ∧
    (∀ k, k < 30 →
      ((renderTick e (schedIter e ⟨true, mx, my, mx, my, lx, ly, false, 0⟩ k)).painted
          = true ↔ k = 29)) ∧
    schedIter e ⟨true, mx, my, mx, my, lx, ly, false, 0⟩ 30
      = ⟨true, mx, my, mx, my, mx, my, false, 0⟩ ∧
    (renderTick e ⟨true, mx, my, mx, my, lx, ly, true, 0⟩).painted = true := by
  have hmx : mx + (mx - mx) * e = mx := by ring
  have hmy : my + (my - my) * e = my := by ring
  have hax : |mx + (mx - mx) * e - lx| ≤ 1 := by rw [hmx]; exact hlx
  have hay : |my + (my - my) * e - ly| ≤ 1 := by rw [hmy]; exact hly
  refine ⟨renderTick_reschedules e s hrun, renderTick_preserves_running e s,
    fun hsx hsy hsnu hsfc => ?_, fun k hk => ?_, ?_, ?_⟩
  · obtain ⟨run, mx0, my0, tx, ty, lx0, ly0, nu0, fc0⟩ := s
    simp only at hrun hsnu
    subst hrun hsnu
    rw [renderTick_skip e mx0 my0 tx ty lx0 ly0 fc0 hsx hsy hsfc]
    exact ⟨rfl, rfl⟩
  · rcases Nat.lt_or_ge k 29 with hk29 | hk29
    · rw [schedIter_stationary e mx my lx ly hlx hly k (by omega),
        renderTick_skip e mx my mx my lx ly k hax hay (by omega)]
      simp
      omega
    · have hk' : k = 29 := by omega
      subst hk'
      rw [schedIter_stationary e mx my lx ly hlx hly 29 le_rfl,
        renderTick_heartbeat e mx my mx my lx ly]
      simp
  · show (renderTick e (schedIter e _ 29)).state = _
    rw [schedIter_stationary e mx my lx ly hlx hly 29 le_rfl,
      renderTick_heartbeat e mx my mx my lx ly, hmx, hmy]
  · simp only [renderTick]
    rw [if_neg (by decide : ¬(true = false)),
      if_neg (by rintro ⟨-, hcon⟩; exact Bool.noConfusion hcon)]

/-- Witness for C2: a concrete running state with the pointer at rest. -/
theorem scheduler_skips_but_never_stops_holds :
    (renderTick (3/10) ⟨true, 0, 0, 5, 5, 0, 0, false, 0⟩).rescheduled = true ∧
    schedIter (3/10) ⟨true, 100, 50, 100, 50, 100, 50, false, 0⟩ 30
      = ⟨true, 100, 50, 100, 50, 100, 50, false, 0⟩ :=
  ⟨(scheduler_skips_but_never_stops (3/10) ⟨true, 0, 0, 5, 5, 0, 0, false, 0⟩
      100 50 100 50 rfl (by norm_num) (by norm_num)).1,
   (scheduler_skips_but_never_stops (3/10) ⟨true, 0, 0, 5, 5, 0, 0, false, 0⟩
      100 50 100 50 rfl (by norm_num) (by norm_num)).2.2.2.2.1⟩

/-- C3 counterexample: in the optimized render pass, with `scrollY = 0`,
viewport height 600, the pointer eased to `(100, 2000)` (document coordinates
below the viewport, e.g. after a scroll with no further pointer event), the
cell centered exactly at the pointer — planar distance 0 — is skipped by the
viewport cull and never drawn. -/
theorem hexDrawOptimized_skips_distance_zero_cell :
    hexDrawOptimized 0 600 100 2000 500 (9/100) ⟨100, 2000, 20⟩ = none ∧
    Real.sqrt ((100 - 100) * (100 - 100) + (2000 - 2000) * (2000 - 2000)) = 0 := by
  constructor
  · simp only [hexDrawOptimized]
    rw [if_pos]
    right
    norm_num
  · norm_num

/-- C3 amended: in both render variants, a cell whose planar distance from the
pointer exceeds `1.5 × fadeRadius` is never drawn; a cell at distance 0 is
drawn at exactly `maxOpacity` in the plain variant, and in the optimized
variant whenever it also lies inside the viewport cull window
(`scrollY - 200 ≤ y ≤ scrollY + innerHeight + 200`). -/
theorem hexDraw_cull_and_center (scrollY innerHeight mx my r m cx cy cs : ℝ) :
    (0 ≤ r → r * 1.5 < Real.sqrt ((cx - mx) * (cx - mx) + (cy - my) * (cy - my)) →
      hexDraw mx my r m ⟨cx, cy, cs⟩ = none ∧
      hexDrawOptimized scrollY innerHeight mx my r m ⟨cx, cy, cs⟩ = none) ∧
    (0 < r → hexDraw mx my r m ⟨mx, my, cs⟩ = some m) ∧
    (0 < r → scrollY - 200 ≤ my → my ≤ scrollY + innerHeight + 200 →
      hexDrawOptimized scrollY innerHeight mx my r m ⟨mx, my, cs⟩ = some m) := by
  refine ⟨fun hr hdist => ⟨?_, ?_⟩, fun hr => ?_, fun hr hv1 hv2 => ?_⟩
  · simp only [hexDraw]
    rw [if_pos hdist]
  · have hsq : 0 ≤ (cx - mx) * (cx - mx) + (cy - my) * (cy - my) :=
      add_nonneg (mul_self_nonneg _) (mul_self_nonneg _)
    have hgt : (r * 1.5) * (r * 1.5) <
        (cx - mx) * (cx - mx) + (cy - my) * (cy - my) := by
      have h2 := mul_self_lt_mul_self (by linarith : (0:ℝ) ≤ r * 1.5) hdist
      rwa [Real.mul_self_sqrt hsq] at h2
    simp only [hexDrawOptimized]
    split_ifs <;> rfl
  · have h0 : Real.sqrt ((mx - mx) * (mx - mx) + (my - my) * (my - my)) = 0 := by
      simp
    simp only [hexDraw, h0]
    rw [if_neg (by intro h; nlinarith : ¬(0 > r * 1.5)), if_pos hr]
    unfold cellOpacity
    rw [zero_div]
    norm_num
  · have hd : (mx - mx) * (mx - mx) + (my - my) * (my - my) = (0:ℝ) := by ring
    simp only [hexDrawOptimized, hd]
    rw [if_neg (by push_neg; exact ⟨by linarith, by linarith⟩)]
    rw [if_neg (by intro h; nlinarith : ¬((0:ℝ) > r * 1.5 * (r * 1.5))),
      if_pos (mul_pos hr hr)]
    rw [Real.sqrt_zero]
    unfold cellOpacity
    rw [zero_div]
    norm_num

/-- Witness for C3 with the shipped configuration (`fadeRadius = 500`,
`maxOpacity = 9/100`) and the pointer inside the viewport. -/
theorem hexDraw_cull_and_center_holds :
    hexDraw 100 100 500 (9/100) ⟨100, 100, 20⟩ = some (9/100) ∧
    hexDrawOptimized 0 600 100 100 500 (9/100) ⟨100, 100, 20⟩ = some (9/100) :=
  ⟨(hexDraw_cull_and_center 0 600 100 100 500 (9/100) 100 100 20).2.1
      (by norm_num),
   (hexDraw_cull_and_center 0 600 100 100 500 (9/100) 100 100 20).2.2
      (by norm_num) (by norm_num) (by norm_num)⟩

/-- Witness for C5: from a grid built at 800×600, resizing to 850×600 keeps
the stored (empty) cell set, and resizing to 1000×600 regenerates it. -/
theorem resize_regeneration_threshold_holds :
    (handleResize true 30 ⟨0, 800, 600, 800, 600, [], false⟩ 1000 850 600).hexGrid
      = ([] : List GridCell) ∧
    (handleResize true 30 ⟨0, 800, 600, 800, 600, [], false⟩ 1000 1000 600).hexGrid
      = generateHexGrid 1000 600 30 (3/2) 1 :=
  ⟨(resize_regeneration_threshold 30 ⟨0, 800, 600, 800, 600, [], false⟩ 1000 850 600
      (by norm_num)).1 (by norm_num) (by norm_num),
   (resize_regeneration_threshold 30 ⟨0, 800, 600, 800, 600, [], false⟩ 1000 1000 600
      (by norm_num)).2 (Or.inl (by norm_num))⟩
